import Mathlib

set_option autoImplicit false

/-!
Shallow embedding of src/services.py, the Fastly service CLI.

HTTP is modelled as a pure responder function from requests to responses;
each embedded function returns its Python result (or raised exception) as an
Except value, paired with the list of HTTP requests it issued, in order.
-/

namespace Fastly

/-- A JSON scalar value as it appears in the request payloads the CLI builds
with json.dumps. -/
inductive JVal where
  | str (s : String)
  | num (n : Int)
  | bool (b : Bool)
  | null
  deriving DecidableEq, Repr

/-- A JSON object payload: ordered key/value pairs, mirroring the insertion
order of the Python dicts that are serialised. -/
abbrev JObj := List (String × JVal)

/-- The HTTP method of a request issued through the requests library. -/
inductive Method where
  | get
  | post
  | put
  | delete
  deriving DecidableEq, Repr

/-- An HTTP request as the code issues it: method, URL, headers, and the
JSON-encoded body when one is sent. -/
structure Request where
  method : Method
  url : String
  headers : List (String × String)
  body : Option JObj := none
  deriving DecidableEq, Repr

/-- A service entry as the code reads it from the service listing JSON: the
code accesses only the id, name and version fields. -/
structure Service where
  id : String
  name : String
  version : Nat
  deriving DecidableEq, Repr

/-- An HTTP response, carrying exactly the pieces the code reads from it: the
status code, the raw text body, and the projections of the parsed JSON body
the code accesses (the service list for the listing endpoint, the number
field for clone, the access_token field for token creation). -/
structure Response where
  status_code : Nat
  text : String
  jsonServices : List Service := []
  jsonNumber : Nat := 0
  jsonAccessToken : String := ""
  deriving DecidableEq, Repr

/-- The exception outcomes of the Python module: its four exception classes,
plus the two builtin errors it can raise (AttributeError from reading an
attribute a dict does not have, NameError from an undefined name). -/
inductive Exc where
  | notFound (msg : String)
  | usage (msg : String)
  | auth (msg : String)
  | fastly (msg : String)
  | attributeError (msg : String)
  | nameError (msg : String)
  deriving DecidableEq, Repr

/-- The remote provider: a deterministic responder for HTTP requests. -/
abbrev Http := Request → Response

/-- Python truthiness of an optional string argument: None and the empty
string are falsy. -/
def pyTruthy : Option String → Bool
  | none => false
  | some s => !s.isEmpty

/-- Python truthiness of the optional service_version argument: None and 0
are falsy, so a check `if not service_version` treats both as absent. -/
def pyVerTruthy : Option Nat → Bool
  | none => false
  | some v => v != 0

/-- The version actually used when the code runs
`if not service_version: service_version = service["version"]`. -/
def versionOrDefault (o : Option Nat) (d : Nat) : Nat :=
  if pyVerTruthy o then o.getD 0 else d

def baseUrl : String := "https://api.fastly.com"

/-- Headers of the read-style requests: Fastly-Key and Accept. -/
def getHeaders (api_key : String) : List (String × String) :=
  [("Fastly-Key", api_key), ("Accept", "application/json")]

/-- Headers of the JSON-body requests: Fastly-Key, Content-Type, Accept. -/
def jsonHeaders (api_key : String) : List (String × String) :=
  [("Fastly-Key", api_key), ("Content-Type", "application/json"),
   ("Accept", "application/json")]

/-- The GET request for the service listing endpoint. -/
def serviceListReq (api_key : String) : Request :=
  { method := Method.get, url := baseUrl ++ "/service",
    headers := getHeaders api_key, body := none }

/-- The step of Python max with a version key: a later element replaces the
accumulator only when its version is strictly greater, so the first element
with the maximal version wins. -/
def vmax (acc t : Service) : Service :=
  if acc.version < t.version then t else acc

/-- Python max of a service list keyed by version: none on the empty list
(where Python raises ValueError), otherwise the first maximal element. -/
def pyMax : List Service → Option Service
  | [] => none
  | s :: rest => some (rest.foldl vmax s)

/-- The exact-name matches in the parsed service listing, as filtered by
get_service. -/
def matching (http : Http) (name api_key : String) : List Service :=
  ((http (serviceListReq api_key)).jsonServices).filter (fun s => s.name == name)

/-- Python get_service(name, api_key): fetch all services, raise a
UsageException when the listing status is not 200, otherwise return the
max-version entry among the exact name matches, raising NotFoundException
when there are none (max on an empty list raises ValueError, which the code
catches and converts). -/
def get_service (http : Http) (name api_key : String) :
    Except Exc Service × List Request :=
  if (http (serviceListReq api_key)).status_code ≠ 200 then
    (Except.error (Exc.usage ("Received error from Fastly: " ++
        (http (serviceListReq api_key)).text)),
     [serviceListReq api_key])
  else
    match pyMax (matching http name api_key) with
    | some s => (Except.ok s, [serviceListReq api_key])
    | none =>
      (Except.error (Exc.notFound ("Fastly service with name " ++ name ++
          " was not found.")),
       [serviceListReq api_key])

theorem vmax_cases (a b : Service) : vmax a b = a ∨ vmax a b = b := by
  unfold vmax
  split
  · exact Or.inr rfl
  · exact Or.inl rfl

theorem le_vmax_left (a b : Service) : a.version ≤ (vmax a b).version := by
  unfold vmax
  split <;> omega

theorem le_vmax_right (a b : Service) : b.version ≤ (vmax a b).version := by
  unfold vmax
  split <;> omega

theorem foldl_vmax_mem (l : List Service) (s : Service) :
    l.foldl vmax s ∈ s :: l := by
  induction l generalizing s with
  | nil => simp
  | cons u rest ih =>
    have h := ih (vmax s u)
    rw [List.foldl_cons]
    rcases List.mem_cons.mp h with h1 | h1
    · rcases vmax_cases s u with h2 | h2
      · rw [h1, h2]
        exact List.mem_cons_self _ _
      · rw [h1, h2]
        exact List.mem_cons_of_mem _ (List.mem_cons_self _ _)
    · exact List.mem_cons_of_mem _ (List.mem_cons_of_mem _ h1)

theorem foldl_vmax_ge (l : List Service) (s : Service) :
    ∀ t ∈ s :: l, t.version ≤ (l.foldl vmax s).version := by
  induction l generalizing s with
  | nil =>
    intro t ht
    rw [List.mem_singleton] at ht
    simp [ht]
  | cons u rest ih =>
    intro t ht
    rw [List.foldl_cons]
    rcases List.mem_cons.mp ht with h1 | h1
    · subst h1
      exact le_trans (le_vmax_left t u) (ih (vmax t u) _ (List.mem_cons_self _ _))
    · rcases List.mem_cons.mp h1 with h2 | h2
      · subst h2
        exact le_trans (le_vmax_right s t) (ih (vmax s t) _ (List.mem_cons_self _ _))
      · exact ih (vmax s u) t (List.mem_cons_of_mem _ h2)

theorem pyMax_spec (l : List Service) (hne : l ≠ []) :
    ∃ s, pyMax l = some s ∧ s ∈ l ∧ ∀ t ∈ l, t.version ≤ s.version := by
  match l with
  | [] => exact absurd rfl hne
  | a :: rest =>
    exact ⟨rest.foldl vmax a, rfl, foldl_vmax_mem rest a, foldl_vmax_ge rest a⟩

theorem pairwise_version_inj (l : List Service)
    (hp : l.Pairwise (fun a b => a.version ≠ b.version)) :
    ∀ a ∈ l, ∀ b ∈ l, a.version = b.version → a = b := by
  induction l with
  | nil =>
    intro a ha
    exact absurd ha (List.not_mem_nil a)
  | cons x rest ih =>
    rcases List.pairwise_cons.mp hp with ⟨hx, hrest⟩
    intro a ha b hb hv
    rcases List.mem_cons.mp ha with ha1 | ha1 <;> rcases List.mem_cons.mp hb with hb1 | hb1
    · rw [ha1, hb1]
    · subst ha1
      exact absurd hv (hx b hb1)
    · subst hb1
      exact absurd hv.symm (hx a ha1)
    · exact ih hrest a ha1 b hb1 hv

/-- The parsed JSON body returned by a successful clone: the code reads only
the number field (the new version number). Note that clone_service returns
this parsed dict, not the HTTP response object. -/
structure CloneJson where
  number : Nat
  deriving DecidableEq, Repr

/-- The PUT request for cloning a service version. -/
def cloneReq (sid : String) (ver : Nat) (api_key : String) : Request :=
  { method := Method.put,
    url := baseUrl ++ "/service/" ++ sid ++ "/version/" ++ toString ver ++ "/clone",
    headers := getHeaders api_key, body := none }

/-- Python clone_service(name, api_key): look up the service twice (once for
the id, once for the version), PUT the clone request, raise FastlyException
on a non-200 status, otherwise return the parsed JSON body of the response. -/
def clone_service (http : Http) (name api_key : String) :
    Except Exc CloneJson × List Request :=
  match get_service http name api_key with
  | (Except.error e, t1) => (Except.error e, t1)
  | (Except.ok sForId, t1) =>
    match get_service http name api_key with
    | (Except.error e, t2) => (Except.error e, t1 ++ t2)
    | (Except.ok sForVer, t2) =>
      if (http (cloneReq sForId.id sForVer.version api_key)).status_code ≠ 200 then
        (Except.error (Exc.fastly ("Error from Fastly API: " ++
            (http (cloneReq sForId.id sForVer.version api_key)).text)),
         t1 ++ t2 ++ [cloneReq sForId.id sForVer.version api_key])
      else
        (Except.ok { number := (http (cloneReq sForId.id sForVer.version api_key)).jsonNumber },
         t1 ++ t2 ++ [cloneReq sForId.id sForVer.version api_key])

/-- The POST request creating the VCL resource named Main with the given
content. -/
def vclCreateReq (sid : String) (ver : Nat) (content api_key : String) : Request :=
  { method := Method.post,
    url := baseUrl ++ "/service/" ++ sid ++ "/version/" ++ toString ver ++ "/vcl",
    headers := jsonHeaders api_key,
    body := some [("content", JVal.str content), ("name", JVal.str ("Main"))] }

/-- The PUT request marking the VCL named Main as the main entry point. -/
def vclMainReq (sid : String) (ver : Nat) (api_key : String) : Request :=
  { method := Method.put,
    url := baseUrl ++ "/service/" ++ sid ++ "/version/" ++ toString ver ++ "/vcl/Main/main",
    headers := jsonHeaders api_key, body := none }

/-- Python upload_vcl_by_id: POST the VCL content read from the filesystem
(raising FastlyException on a non-200 status), then PUT the set-main request
and return its response without checking its status. The filesystem is
modelled as a map from path to contents, standing for file(vcl).read(). -/
def upload_vcl_by_id (http : Http) (fs : String → String)
    (fastly_service_id : String) (fastly_service_version : Nat) (vcl api_key : String) :
    Except Exc Response × List Request :=
  if (http (vclCreateReq fastly_service_id fastly_service_version (fs vcl) api_key)).status_code ≠ 200 then
    (Except.error (Exc.fastly ("Error from Fastly API: " ++
        (http (vclCreateReq fastly_service_id fastly_service_version (fs vcl) api_key)).text)),
     [vclCreateReq fastly_service_id fastly_service_version (fs vcl) api_key])
  else
    (Except.ok (http (vclMainReq fastly_service_id fastly_service_version api_key)),
     [vclCreateReq fastly_service_id fastly_service_version (fs vcl) api_key,
      vclMainReq fastly_service_id fastly_service_version api_key])

/-- Python upload_vcl(name, vcl, service_version, api_key): resolve the
service, default the version from the lookup, run upload_vcl_by_id, and raise
FastlyException when the response it returns (the set-main response) has a
non-200 status; otherwise return that response. -/
def upload_vcl (http : Http) (fs : String → String) (name vcl : String)
    (service_version : Option Nat) (api_key : String) :
    Except Exc Response × List Request :=
  match get_service http name api_key with
  | (Except.error e, t1) => (Except.error e, t1)
  | (Except.ok service, t1) =>
    match upload_vcl_by_id http fs service.id
        (versionOrDefault service_version service.version) vcl api_key with
    | (Except.error e, t2) => (Except.error e, t1 ++ t2)
    | (Except.ok resp, t2) =>
      if resp.status_code ≠ 200 then
        (Except.error (Exc.fastly ("Error from Fastly API: " ++ resp.text)), t1 ++ t2)
      else
        (Except.ok resp, t1 ++ t2)

/-- The DELETE request for a named VCL resource. -/
def vclDeleteReq (sid : String) (ver : Nat) (vcl_name api_key : String) : Request :=
  { method := Method.delete,
    url := baseUrl ++ "/service/" ++ sid ++ "/version/" ++ toString ver ++ "/vcl/" ++ vcl_name,
    headers := getHeaders api_key, body := none }

/-- Python delete_vcl(service_name, vcl_name, service_version, api_key):
resolve the service, default the version, DELETE the VCL resource, raising
FastlyException on a non-200 status and returning the response otherwise. -/
def delete_vcl (http : Http) (service_name vcl_name : String)
    (service_version : Option Nat) (api_key : String) :
    Except Exc Response × List Request :=
  match get_service http service_name api_key with
  | (Except.error e, t1) => (Except.error e, t1)
  | (Except.ok service, t1) =>
    if (http (vclDeleteReq service.id (versionOrDefault service_version service.version)
        vcl_name api_key)).status_code ≠ 200 then
      (Except.error (Exc.fastly ("Error from Fastly API: " ++
          (http (vclDeleteReq service.id (versionOrDefault service_version service.version)
            vcl_name api_key)).text)),
       t1 ++ [vclDeleteReq service.id (versionOrDefault service_version service.version)
         vcl_name api_key])
    else
      (Except.ok (http (vclDeleteReq service.id
          (versionOrDefault service_version service.version) vcl_name api_key)),
       t1 ++ [vclDeleteReq service.id (versionOrDefault service_version service.version)
         vcl_name api_key])

/-- The POST request adding a domain to a service version. -/
def domainAddReq (sid : String) (ver : Nat) (domain api_key : String) : Request :=
  { method := Method.post,
    url := baseUrl ++ "/service/" ++ sid ++ "/version/" ++ toString ver ++ "/domain",
    headers := jsonHeaders api_key,
    body := some [("name", JVal.str domain)] }

/-- Python add_domain(name, domain, service_version, api_key): resolve the
service id with the api_key argument; when service_version is falsy, a second
lookup fetches the version, and that second call get_service(name) uses the
module-level default key (apiKeyEnv here), not the api_key argument. POST the
domain, raising FastlyException on a non-200 status. -/
def add_domain (http : Http) (apiKeyEnv name domain : String)
    (service_version : Option Nat) (api_key : String) :
    Except Exc Response × List Request :=
  match get_service http name api_key with
  | (Except.error e, t1) => (Except.error e, t1)
  | (Except.ok service, t1) =>
    match (if pyVerTruthy service_version then
             (Except.ok (service_version.getD 0), ([] : List Request))
           else
             match get_service http name apiKeyEnv with
             | (Except.error e, t) => (Except.error e, t)
             | (Except.ok s2, t) => (Except.ok s2.version, t)) with
    | (Except.error e, t2) => (Except.error e, t1 ++ t2)
    | (Except.ok ver, t2) =>
      if (http (domainAddReq service.id ver domain api_key)).status_code ≠ 200 then
        (Except.error (Exc.fastly ("Error from Fastly API: " ++
            (http (domainAddReq service.id ver domain api_key)).text)),
         t1 ++ t2 ++ [domainAddReq service.id ver domain api_key])
      else
        (Except.ok (http (domainAddReq service.id ver domain api_key)),
         t1 ++ t2 ++ [domainAddReq service.id ver domain api_key])

/-- The DELETE request removing a domain from a service version. -/
def domainDeleteReq (sid : String) (ver : Nat) (domain api_key : String) : Request :=
  { method := Method.delete,
    url := baseUrl ++ "/service/" ++ sid ++ "/version/" ++ toString ver ++ "/domain/" ++ domain,
    headers := getHeaders api_key, body := none }

/-- Python delete_domain(name, domain, api_key): both lookups call
get_service(name) with the module-level default key (apiKeyEnv here); the
DELETE is then issued but its response status is never checked and the
function returns None regardless of the outcome. -/
def delete_domain (http : Http) (apiKeyEnv name domain api_key : String) :
    Except Exc Unit × List Request :=
  match get_service http name apiKeyEnv with
  | (Except.error e, t1) => (Except.error e, t1)
  | (Except.ok sForId, t1) =>
    match get_service http name apiKeyEnv with
    | (Except.error e, t2) => (Except.error e, t1 ++ t2)
    | (Except.ok sForVer, t2) =>
      (Except.ok (), t1 ++ t2 ++ [domainDeleteReq sForId.id sForVer.version domain api_key])

/-- JSON encoding of an optional string: None becomes null. -/
def jOfOpt : Option String → JVal
  | none => JVal.null
  | some s => JVal.str s

/-- The backend_settings dict built by create_backend: the base fields in
insertion order, followed by the TLS fields appended only when a certificate
path was supplied (the certificate body is read from the filesystem). -/
def backend_settings (backend : String) (cert cert_domain : Option String)
    (fs : String → String) : JObj :=
  match cert with
  | none =>
    [("address", JVal.str backend),
     ("first_byte_timeout", JVal.num 30000),
     ("name", JVal.str ("Main"))]
  | some c =>
    [("address", JVal.str backend),
     ("first_byte_timeout", JVal.num 30000),
     ("name", JVal.str ("Main")),
     ("port", JVal.num 443),
     ("ssl_cert_hostname", jOfOpt cert_domain),
     ("ssl_check_cert", JVal.bool true),
     ("ssl_ca_cert", JVal.str (fs c)),
     ("use_ssl", JVal.bool true)]

/-- The POST request adding a backend with the given settings payload. -/
def backendAddReq (sid : String) (ver : Nat) (settings : JObj) (api_key : String) : Request :=
  { method := Method.post,
    url := baseUrl ++ "/service/" ++ sid ++ "/version/" ++ toString ver ++ "/backend",
    headers := jsonHeaders api_key,
    body := some settings }

/-- Python create_backend(name, backend, cert, cert_domain, service_version,
api_key): resolve the service id; when service_version is falsy, a second
lookup (with the same api_key) fetches the version; build backend_settings
(with the TLS fields exactly when cert is not None) and POST it, raising
FastlyException on a non-200 status. -/
def create_backend (http : Http) (fs : String → String) (name backend : String)
    (cert cert_domain : Option String) (service_version : Option Nat) (api_key : String) :
    Except Exc Response × List Request :=
  match get_service http name api_key with
  | (Except.error e, t1) => (Except.error e, t1)
  | (Except.ok service, t1) =>
    match (if pyVerTruthy service_version then
             (Except.ok (service_version.getD 0), ([] : List Request))
           else
             match get_service http name api_key with
             | (Except.error e, t) => (Except.error e, t)
             | (Except.ok s2, t) => (Except.ok s2.version, t)) with
    | (Except.error e, t2) => (Except.error e, t1 ++ t2)
    | (Except.ok ver, t2) =>
      if (http (backendAddReq service.id ver
          (backend_settings backend cert cert_domain fs) api_key)).status_code ≠ 200 then
        (Except.error (Exc.fastly ("Error from Fastly API: " ++
            (http (backendAddReq service.id ver
              (backend_settings backend cert cert_domain fs) api_key)).text)),
         t1 ++ t2 ++ [backendAddReq service.id ver
           (backend_settings backend cert cert_domain fs) api_key])
      else
        (Except.ok (http (backendAddReq service.id ver
            (backend_settings backend cert cert_domain fs) api_key)),
         t1 ++ t2 ++ [backendAddReq service.id ver
           (backend_settings backend cert cert_domain fs) api_key])

/-- Python delete_backend(name, domain, api_key): after the two lookups (the
first with the api_key argument, the second with the module-level default
key), the DELETE URL is formatted from the name backend, which is neither a
parameter nor a local of the function; Python raises NameError while
formatting the URL, before requests.delete is ever invoked, so no DELETE
request is issued. -/
def delete_backend (http : Http) (apiKeyEnv name domain api_key : String) :
    Except Exc Unit × List Request :=
  match get_service http name api_key with
  | (Except.error e, t1) => (Except.error e, t1)
  | (Except.ok _sForId, t1) =>
    match get_service http name apiKeyEnv with
    | (Except.error e, t2) => (Except.error e, t1 ++ t2)
    | (Except.ok _sForVer, t2) =>
      (Except.error (Exc.nameError ("name backend is not defined")), t1 ++ t2)

/-- The PUT request activating a service version. -/
def activateReq (sid : String) (ver : Nat) (api_key : String) : Request :=
  { method := Method.put,
    url := baseUrl ++ "/service/" ++ sid ++ "/version/" ++ toString ver ++ "/activate",
    headers := getHeaders api_key, body := none }

/-- Python activate_service(name, service_version, api_key): resolve the
service, default the version from the lookup, PUT the activate request,
raising FastlyException on a non-200 status. -/
def activate_service (http : Http) (name : String) (service_version : Option Nat)
    (api_key : String) : Except Exc Response × List Request :=
  match get_service http name api_key with
  | (Except.error e, t1) => (Except.error e, t1)
  | (Except.ok service, t1) =>
    if (http (activateReq service.id (versionOrDefault service_version service.version)
        api_key)).status_code ≠ 200 then
      (Except.error (Exc.fastly ("Error from Fastly API: " ++
          (http (activateReq service.id (versionOrDefault service_version service.version)
            api_key)).text)),
       t1 ++ [activateReq service.id (versionOrDefault service_version service.version) api_key])
    else
      (Except.ok (http (activateReq service.id
          (versionOrDefault service_version service.version) api_key)),
       t1 ++ [activateReq service.id (versionOrDefault service_version service.version) api_key])

/-- The result of create_token: the access token string on a 200 status,
otherwise (after printing a failure message) the raw response object. -/
inductive TokenResult where
  | token (t : String)
  | failed (resp : Response)
  deriving DecidableEq, Repr

/-- Python username.split with a slash, index 1: when the username contains a
slash, keep the second component of the split; otherwise keep the username. -/
def splitUser (username : String) : String :=
  if (username.splitOn ("/")).length > 1 then
    (username.splitOn ("/")).getD 1 ("")
  else
    username

/-- The POST request creating an API token; its header carries the
module-level API_KEY. -/
def tokenCreateReq (sid username password apiKeyEnv : String) : Request :=
  { method := Method.post,
    url := baseUrl ++ "/tokens",
    headers := jsonHeaders apiKeyEnv,
    body := some [("service_id", JVal.str sid),
                  ("username", JVal.str username),
                  ("password", JVal.str password)] }

/-- Python create_token(name, username, password): strip the part before a
slash from the username, default a falsy password from the secret store, and
resolve the service id with the module-level default key while building the
payload; then POST the token request. On a 200 status return the access token
from the parsed body; on any other status print a message and return the raw
response without raising. Modelled from the spec: get_pass, the local
secret-store lookup, is not defined in src/services.py; its result is the
getPass argument here (the password retrieved by a fixed lookup key). -/
def create_token (http : Http) (apiKeyEnv getPass name username password : String) :
    Except Exc TokenResult × List Request :=
  match get_service http name apiKeyEnv with
  | (Except.error e, t1) => (Except.error e, t1)
  | (Except.ok service, t1) =>
    if (http (tokenCreateReq service.id (splitUser username)
        (if password.isEmpty then getPass else password) apiKeyEnv)).status_code == 200 then
      (Except.ok (TokenResult.token (http (tokenCreateReq service.id (splitUser username)
          (if password.isEmpty then getPass else password) apiKeyEnv)).jsonAccessToken),
       t1 ++ [tokenCreateReq service.id (splitUser username)
         (if password.isEmpty then getPass else password) apiKeyEnv])
    else
      (Except.ok (TokenResult.failed (http (tokenCreateReq service.id (splitUser username)
          (if password.isEmpty then getPass else password) apiKeyEnv))),
       t1 ++ [tokenCreateReq service.id (splitUser username)
         (if password.isEmpty then getPass else password) apiKeyEnv])

/-- The parsed command-line arguments produced by parse_args: each optional
flag is None when absent; modify and activate both default to True. -/
structure Args where
  name : Option String := none
  vcl : Option String := none
  key : Option String := none
  cert : Option String := none
  backend : Option String := none
  domain : Option String := none
  modify : Bool := true
  activate : Bool := true
  deriving DecidableEq, Repr

/-- The local variable names in scope inside main at its credential guard:
only the parameter args. The module-level API_KEY is a global, so vars()
inside main never contains it. -/
def mainLocals : List String := [("args")]

/-- The usage guidance message raised or printed by main. -/
def helpMsg : String :=
  "See help by using the --help flag. Or visit https://lab.plat.farm/r0fls/pe-automation/tree/master/fastly"

/-- The authorization error message raised by main. -/
def authMsg : String :=
  "Set the FASTLY_API_KEY environment variable or pass it in to the CLI with --key <API_KEY>"

/-- The AttributeError message from reading status_code off the clone dict. -/
def attrMsg : String :=
  "dict object has no attribute status_code"

/-- Python main(args): the usage guard on the name; the credential guard
testing membership of the string API_KEY in vars() — the locals of main,
which never contain the module-level global, so the test reduces to whether
args.key is truthy (apiKeyEnv, the environment credential, is never
consulted); then, with modify set, clone the service and test
new_service.status_code — but new_service is the parsed JSON dict returned by
clone_service, which has no status_code attribute, so Python raises
AttributeError there and the mutator and activation calls below that line are
unreachable. With modify falsy, main prints the help pointer and returns. -/
def main (http : Http) (apiKeyEnv : String) (args : Args) :
    Except Exc Unit × List Request :=
  if !(pyTruthy args.name) then
    (Except.error (Exc.usage helpMsg), [])
  else if !(mainLocals.contains ("API_KEY")) && !(pyTruthy args.key) then
    (Except.error (Exc.auth authMsg), [])
  else if args.modify then
    match clone_service http (args.name.getD ("")) (args.key.getD ("")) with
    | (Except.error e, t) => (Except.error e, t)
    | (Except.ok _new_service, t) =>
      (Except.error (Exc.attributeError attrMsg), t)
  else
    (Except.ok (), [])

/-- The spec scenario service list: versions 3, 5 and 2 under the name shop. -/
def shopServices : List Service :=
  [{ id := "sid1", name := "shop", version := 3 },
   { id := "sid1", name := "shop", version := 5 },
   { id := "sid1", name := "shop", version := 2 }]

/-- A provider where every request succeeds: listings return the shop
services and the clone response carries new version number 6. -/
def httpShop : Http := fun req =>
  match req.method with
  | Method.get => { status_code := 200, text := "service list", jsonServices := shopServices }
  | Method.put => { status_code := 200, text := "put ok", jsonNumber := 6 }
  | Method.post => { status_code := 200, text := "post ok", jsonAccessToken := "tok" }
  | Method.delete => { status_code := 200, text := "delete ok" }

/-- A provider whose every response is a 500 server error. -/
def httpDown : Http := fun _ => { status_code := 500, text := "server error" }

/-- A provider where listings succeed but every PUT fails. -/
def httpPutFails : Http := fun req =>
  match req.method with
  | Method.get => { status_code := 200, text := "service list", jsonServices := shopServices }
  | Method.put => { status_code := 500, text := "put failed" }
  | Method.post => { status_code := 200, text := "post ok" }
  | Method.delete => { status_code := 200, text := "delete ok" }

/-- A provider where DELETE requests fail. -/
def httpDeleteFails : Http := fun req =>
  match req.method with
  | Method.get => { status_code := 200, text := "service list", jsonServices := shopServices }
  | Method.put => { status_code := 200, text := "put ok", jsonNumber := 6 }
  | Method.post => { status_code := 200, text := "post ok" }
  | Method.delete => { status_code := 500, text := "delete failed" }

/-- A provider where POST requests fail. -/
def httpPostFails : Http := fun req =>
  match req.method with
  | Method.get => { status_code := 200, text := "service list", jsonServices := shopServices }
  | Method.put => { status_code := 200, text := "put ok", jsonNumber := 6 }
  | Method.post => { status_code := 403, text := "forbidden" }
  | Method.delete => { status_code := 200, text := "delete ok" }

theorem get_service_trace (http : Http) (name api_key : String) :
    (get_service http name api_key).2 = [serviceListReq api_key] := by
  unfold get_service
  split
  · rfl
  · split <;> rfl

theorem get_service_pair (http : Http) (name api_key : String) (s : Service)
    (h : (get_service http name api_key).1 = Except.ok s) :
    get_service http name api_key = (Except.ok s, [serviceListReq api_key]) := by
  have ht := get_service_trace http name api_key
  rcases hgs : get_service http name api_key with ⟨r, t⟩
  rw [hgs] at h ht
  simp only at h ht
  rw [h, ht]

/-- Shared content of the lookup claims: a successful, non-empty-match
listing makes get_service return a matching entry of maximal version. -/
theorem get_service_max_spec (http : Http) (name api_key : String)
    (h200 : (http (serviceListReq api_key)).status_code = 200)
    (hne : matching http name api_key ≠ []) :
    ∃ s, (get_service http name api_key).1 = Except.ok s ∧
      s ∈ matching http name api_key ∧
      ∀ t ∈ matching http name api_key, t.version ≤ s.version := by
  obtain ⟨s, hmax, hmem, hge⟩ := pyMax_spec (matching http name api_key) hne
  refine ⟨s, ?_, hmem, hge⟩
  unfold get_service
  rw [if_neg (not_ne_iff.mpr h200), hmax]

/-- C2: whenever the listing succeeds and the exact-name matches are
non-empty, get_service returns a matching entry whose version is maximal, and
whenever the matching versions are pairwise distinct that entry is the unique
maximal one. -/
theorem get_service_returns_max (http : Http) (name api_key : String)
    (h200 : (http (serviceListReq api_key)).status_code = 200)
    (hne : matching http name api_key ≠ []) :
    ∃ s, (get_service http name api_key).1 = Except.ok s ∧
      s ∈ matching http name api_key ∧
      (∀ t ∈ matching http name api_key, t.version ≤ s.version) ∧
      ((matching http name api_key).Pairwise (fun a b => a.version ≠ b.version) →
        ∀ t ∈ matching http name api_key,
          (∀ u ∈ matching http name api_key, u.version ≤ t.version) → s = t) := by
  obtain ⟨s, hok, hmem, hge⟩ := get_service_max_spec http name api_key h200 hne
  refine ⟨s, hok, hmem, hge, ?_⟩
  intro hp t ht hmaxt
  exact pairwise_version_inj _ hp s hmem t ht (le_antisymm (hmaxt s hmem) (hge t ht))

/-- C2 witness: the shop scenario with versions 3, 5 and 2. -/
theorem get_service_returns_max_witness :
    ∃ s, (get_service httpShop ("shop") ("k")).1 = Except.ok s ∧
      s ∈ matching httpShop ("shop") ("k") ∧
      (∀ t ∈ matching httpShop ("shop") ("k"), t.version ≤ s.version) ∧
      ((matching httpShop ("shop") ("k")).Pairwise (fun a b => a.version ≠ b.version) →
        ∀ t ∈ matching httpShop ("shop") ("k"),
          (∀ u ∈ matching httpShop ("shop") ("k"), u.version ≤ t.version) → s = t) :=
  get_service_returns_max httpShop ("shop") ("k") rfl (by decide)

/-- C2 sanity example: on the shop scenario the lookup yields version 5. -/
theorem get_service_shop_version_five :
    (get_service httpShop ("shop") ("k")).1 =
      Except.ok { id := "sid1", name := "shop", version := 5 } := rfl

/-- C3: get_service raises UsageException carrying the body when the listing
is non-success, raises NotFoundException when the listing succeeds but no
entry matches (never a default value), and returns an entry in all other
cases. -/
theorem get_service_error_conditions (http : Http) (name api_key : String) :
    ((http (serviceListReq api_key)).status_code ≠ 200 →
      (get_service http name api_key).1 = Except.error (Exc.usage
        ("Received error from Fastly: " ++ (http (serviceListReq api_key)).text))) ∧
    ((http (serviceListReq api_key)).status_code = 200 → matching http name api_key = [] →
      (get_service http name api_key).1 = Except.error (Exc.notFound
        ("Fastly service with name " ++ name ++ " was not found."))) ∧
    ((http (serviceListReq api_key)).status_code = 200 → matching http name api_key ≠ [] →
      ∃ s, (get_service http name api_key).1 = Except.ok s) := by
  refine ⟨?_, ?_, ?_⟩
  · intro h
    unfold get_service
    rw [if_pos h]
  · intro h200 hempty
    unfold get_service
    rw [if_neg (not_ne_iff.mpr h200), hempty]
    rfl
  · intro h200 hne
    obtain ⟨s, hok, _, _⟩ := get_service_max_spec http name api_key h200 hne
    exact ⟨s, hok⟩

/-- C3 witness: a failed listing yields the usage error, an unmatched name on
a good listing yields the not-found error, and a matched name yields an
entry. -/
theorem get_service_error_conditions_witness :
    ((get_service httpDown ("shop") ("k")).1 = Except.error (Exc.usage
      ("Received error from Fastly: " ++ (httpDown (serviceListReq ("k"))).text))) ∧
    ((get_service httpShop ("nope") ("k")).1 = Except.error (Exc.notFound
      ("Fastly service with name " ++ "nope" ++ " was not found."))) ∧
    (∃ s, (get_service httpShop ("shop") ("k")).1 = Except.ok s) :=
  ⟨(get_service_error_conditions httpDown ("shop") ("k")).1 (by decide),
   (get_service_error_conditions httpShop ("nope") ("k")).2.1 rfl (by decide),
   (get_service_error_conditions httpShop ("shop") ("k")).2.2 rfl (by decide)⟩

/-- Shared unfolding of the guards of main: when the name and key are truthy
and modify is set, main reduces to the clone step followed by the dict
attribute access. -/
theorem main_guards_modify (http : Http) (apiKeyEnv : String) (args : Args)
    (hname : pyTruthy args.name = true) (hkey : pyTruthy args.key = true)
    (hmod : args.modify = true) :
    main http apiKeyEnv args =
      (match clone_service http (args.name.getD ("")) (args.key.getD ("")) with
       | (Except.error e, t) => (Except.error e, t)
       | (Except.ok _ns, t) => (Except.error (Exc.attributeError attrMsg), t)) := by
  unfold main
  rw [hname, hkey, hmod]
  rfl

/-- Shared clone lemma: when the lookup succeeds and the clone PUT status is
not 200, clone_service raises FastlyException with the response body after
issuing exactly two listing requests and the clone request. -/
theorem clone_service_fail (http : Http) (name api_key : String) (s : Service)
    (hs : (get_service http name api_key).1 = Except.ok s)
    (hclone : (http (cloneReq s.id s.version api_key)).status_code ≠ 200) :
    clone_service http name api_key =
      (Except.error (Exc.fastly ("Error from Fastly API: " ++
          (http (cloneReq s.id s.version api_key)).text)),
       [serviceListReq api_key, serviceListReq api_key, cloneReq s.id s.version api_key]) := by
  unfold clone_service
  rw [get_service_pair http name api_key s hs]
  simp only []
  rw [if_pos hclone]
  rfl

/-- Shared clone lemma: when the lookup succeeds and the clone PUT status is
200, clone_service returns the parsed clone JSON. -/
theorem clone_service_ok (http : Http) (name api_key : String) (s : Service)
    (hs : (get_service http name api_key).1 = Except.ok s)
    (hclone : (http (cloneReq s.id s.version api_key)).status_code = 200) :
    clone_service http name api_key =
      (Except.ok { number := (http (cloneReq s.id s.version api_key)).jsonNumber },
       [serviceListReq api_key, serviceListReq api_key, cloneReq s.id s.version api_key]) := by
  unfold clone_service
  rw [get_service_pair http name api_key s hs]
  simp only []
  rw [if_neg (not_ne_iff.mpr hclone)]
  rfl

/-- The arguments of the spec scenario run: all three mutator inputs present,
modify and activate at their True defaults. -/
def argsFull : Args :=
  { name := some ("shop"), vcl := some ("main.vcl"), key := some ("k"),
    cert := none, backend := some ("origin.example.com"),
    domain := some ("www.example.com"), modify := true, activate := true }

/-- Arguments with only the name and the key supplied. -/
def argsShop : Args := { name := some ("shop"), key := some ("k") }

/-- Arguments with a name but no key. -/
def argsNoKey : Args := { name := some ("shop") }

/-- Arguments with no name at all. -/
def argsEmpty : Args := {}

/-- C1: evaluating main on a run where every request succeeds (the clone
response carries new version number 6): main stops with the AttributeError
raised by reading status_code off the parsed clone JSON dict, and its whole
trace is the two lookups plus the clone request — the backend, VCL and
domain mutators are never applied to the cloned version and no activation
request is issued, contrary to the claimed orchestration. -/
theorem main_attribute_error_after_clone :
    main httpShop ("envkey") argsFull =
      (Except.error (Exc.attributeError attrMsg),
       [serviceListReq ("k"), serviceListReq ("k"), cloneReq ("sid1") 5 ("k")]) := rfl

/-- C4: when the guards pass, the lookup succeeds and the clone PUT returns a
non-success status, main propagates the FastlyException and its whole trace
is the two listing requests plus the clone request: no mutator request and no
activation request is ever issued afterward. -/
theorem clone_failure_aborts (http : Http) (apiKeyEnv : String) (args : Args) (s : Service)
    (hname : pyTruthy args.name = true) (hkey : pyTruthy args.key = true)
    (hmod : args.modify = true)
    (hs : (get_service http (args.name.getD ("")) (args.key.getD (""))).1 = Except.ok s)
    (hclone : (http (cloneReq s.id s.version (args.key.getD ("")))).status_code ≠ 200) :
    main http apiKeyEnv args =
      (Except.error (Exc.fastly ("Error from Fastly API: " ++
          (http (cloneReq s.id s.version (args.key.getD ("")))).text)),
       [serviceListReq (args.key.getD ("")), serviceListReq (args.key.getD ("")),
        cloneReq s.id s.version (args.key.getD (""))]) := by
  rw [main_guards_modify http apiKeyEnv args hname hkey hmod,
    clone_service_fail http (args.name.getD ("")) (args.key.getD ("")) s hs hclone]

/-- C4 witness: the provider whose clone PUT fails with a 500. -/
theorem clone_failure_aborts_witness :
    main httpPutFails ("envkey") argsShop =
      (Except.error (Exc.fastly ("Error from Fastly API: " ++
          (httpPutFails (cloneReq ("sid1") 5 ("k"))).text)),
       [serviceListReq ("k"), serviceListReq ("k"), cloneReq ("sid1") 5 ("k")]) :=
  clone_failure_aborts httpPutFails ("envkey") argsShop
    { id := "sid1", name := "shop", version := 5 } rfl rfl rfl rfl (by decide)

/-- C8: with the environment credential absent (empty) and no key flag, main
fails with AuthException before issuing any request; a missing service name
is the distinct UsageException carrying the guidance text, also before any
request. -/
theorem missing_credential_auth (http : Http) (args argsNN : Args)
    (hname : pyTruthy args.name = true) (hkey : pyTruthy args.key = false)
    (hnn : pyTruthy argsNN.name = false) :
    main http ("") args = (Except.error (Exc.auth authMsg), []) ∧
    main http ("") argsNN = (Except.error (Exc.usage helpMsg), []) := by
  constructor
  · unfold main
    rw [hname, hkey]
    rfl
  · unfold main
    rw [hnn]
    rfl

/-- C8 witness: a run with a name but no key raises the auth error with an
empty trace, and a run with no name raises the usage error. -/
theorem missing_credential_auth_witness :
    main httpShop ("") argsNoKey = (Except.error (Exc.auth authMsg), []) ∧
    main httpShop ("") argsEmpty = (Except.error (Exc.usage helpMsg), []) :=
  missing_credential_auth httpShop argsNoKey argsEmpty rfl rfl rfl

/-- C10: the vars() membership test for API_KEY over the locals of main never
succeeds, so for every value of the environment credential main raises
AuthException whenever the key flag is absent. -/
theorem auth_error_ignores_env (http : Http) (apiKeyEnv : String) (args : Args)
    (hname : pyTruthy args.name = true) (hkey : args.key = none) :
    mainLocals.contains ("API_KEY") = false ∧
    main http apiKeyEnv args = (Except.error (Exc.auth authMsg), []) := by
  refine ⟨rfl, ?_⟩
  unfold main
  rw [hname, hkey]
  rfl

/-- C10 witness: the environment credential is set to SECRET, yet the run
without a key flag still fails with AuthException. -/
theorem auth_error_ignores_env_witness :
    mainLocals.contains ("API_KEY") = false ∧
    main httpShop ("SECRET") argsNoKey = (Except.error (Exc.auth authMsg), []) :=
  auth_error_ignores_env httpShop ("SECRET") argsNoKey rfl rfl

/-- C9: whenever both lookups inside delete_backend succeed, it fails with
the NameError from the undefined name backend, and its trace holds only the
two listing requests — the DELETE request is never issued. -/
theorem delete_backend_name_error (http : Http) (apiKeyEnv name domain api_key : String)
    (s1 s2 : Service)
    (h1 : (get_service http name api_key).1 = Except.ok s1)
    (h2 : (get_service http name apiKeyEnv).1 = Except.ok s2) :
    delete_backend http apiKeyEnv name domain api_key =
      (Except.error (Exc.nameError ("name backend is not defined")),
       [serviceListReq api_key, serviceListReq apiKeyEnv]) := by
  unfold delete_backend
  rw [get_service_pair http name api_key s1 h1, get_service_pair http name apiKeyEnv s2 h2]
  rfl

/-- C9 witness: both lookups succeed against the shop provider and
delete_backend still fails with the NameError, issuing no DELETE. -/
theorem delete_backend_name_error_witness :
    delete_backend httpShop ("envkey") ("shop") ("www.example.com") ("k") =
      (Except.error (Exc.nameError ("name backend is not defined")),
       [serviceListReq ("k"), serviceListReq ("envkey")]) :=
  delete_backend_name_error httpShop ("envkey") ("shop") ("www.example.com") ("k")
    { id := "sid1", name := "shop", version := 5 }
    { id := "sid1", name := "shop", version := 5 } rfl rfl

/-- Shared upload lemma: when the VCL create POST succeeds, upload_vcl_by_id
issues exactly the create request then the set-main request and returns the
set-main response. -/
theorem upload_vcl_by_id_ok (http : Http) (fs : String → String) (sid : String)
    (ver : Nat) (vcl key : String)
    (h : (http (vclCreateReq sid ver (fs vcl) key)).status_code = 200) :
    upload_vcl_by_id http fs sid ver vcl key =
      (Except.ok (http (vclMainReq sid ver key)),
       [vclCreateReq sid ver (fs vcl) key, vclMainReq sid ver key]) := by
  unfold upload_vcl_by_id
  rw [if_neg (not_ne_iff.mpr h)]

/-- Shared upload lemma: when the VCL create POST fails, upload_vcl_by_id
raises FastlyException with the create response body, after the create
request only. -/
theorem upload_vcl_by_id_fail (http : Http) (fs : String → String) (sid : String)
    (ver : Nat) (vcl key : String)
    (h : (http (vclCreateReq sid ver (fs vcl) key)).status_code ≠ 200) :
    upload_vcl_by_id http fs sid ver vcl key =
      (Except.error (Exc.fastly ("Error from Fastly API: " ++
          (http (vclCreateReq sid ver (fs vcl) key)).text)),
       [vclCreateReq sid ver (fs vcl) key]) := by
  unfold upload_vcl_by_id
  rw [if_pos h]

/-- C6: VCL upload issues the create request then the set-main request, in
that order and nothing else, whenever the create succeeds (and only the
create request when it fails, so both must succeed); and when the create
succeeds but the set-main response is non-success, upload_vcl reports that
failure by raising FastlyException carrying the set-main response body. -/
theorem vcl_upload_two_requests (http : Http) (fs : String → String) :
    (∀ sid ver vcl key, (http (vclCreateReq sid ver (fs vcl) key)).status_code = 200 →
      upload_vcl_by_id http fs sid ver vcl key =
        (Except.ok (http (vclMainReq sid ver key)),
         [vclCreateReq sid ver (fs vcl) key, vclMainReq sid ver key])) ∧
    (∀ sid ver vcl key, (http (vclCreateReq sid ver (fs vcl) key)).status_code ≠ 200 →
      upload_vcl_by_id http fs sid ver vcl key =
        (Except.error (Exc.fastly ("Error from Fastly API: " ++
            (http (vclCreateReq sid ver (fs vcl) key)).text)),
         [vclCreateReq sid ver (fs vcl) key])) ∧
    (∀ name vcl sv key s, (get_service http name key).1 = Except.ok s →
      (http (vclCreateReq s.id (versionOrDefault sv s.version) (fs vcl) key)).status_code = 200 →
      (http (vclMainReq s.id (versionOrDefault sv s.version) key)).status_code ≠ 200 →
      (upload_vcl http fs name vcl sv key).1 = Except.error (Exc.fastly
        ("Error from Fastly API: " ++
          (http (vclMainReq s.id (versionOrDefault sv s.version) key)).text))) := by
  refine ⟨upload_vcl_by_id_ok http fs, upload_vcl_by_id_fail http fs, ?_⟩
  intro name vcl sv key s hs ha hb
  unfold upload_vcl
  rw [get_service_pair http name key s hs]
  simp only []
  rw [upload_vcl_by_id_ok http fs s.id (versionOrDefault sv s.version) vcl key ha]
  simp only []
  rw [if_pos hb]

/-- C6 witness: with the create POST succeeding and the set-main PUT failing,
upload_vcl reports the set-main failure; the all-success and create-failure
shapes are instantiated as well. -/
theorem vcl_upload_two_requests_witness :
    (upload_vcl_by_id httpShop (fun _ => "vcl content") ("sid1") 6 ("main.vcl") ("k") =
      (Except.ok (httpShop (vclMainReq ("sid1") 6 ("k"))),
       [vclCreateReq ("sid1") 6 ("vcl content") ("k"), vclMainReq ("sid1") 6 ("k")])) ∧
    (upload_vcl_by_id httpDown (fun _ => "vcl content") ("sid1") 6 ("main.vcl") ("k") =
      (Except.error (Exc.fastly ("Error from Fastly API: " ++
          (httpDown (vclCreateReq ("sid1") 6 ("vcl content") ("k"))).text)),
       [vclCreateReq ("sid1") 6 ("vcl content") ("k")])) ∧
    ((upload_vcl httpPutFails (fun _ => "vcl content") ("shop") ("main.vcl") (some 6) ("k")).1 =
      Except.error (Exc.fastly ("Error from Fastly API: " ++
        (httpPutFails (vclMainReq ("sid1") 6 ("k"))).text))) :=
  ⟨(vcl_upload_two_requests httpShop (fun _ => "vcl content")).1 ("sid1") 6 ("main.vcl") ("k") rfl,
   (vcl_upload_two_requests httpDown (fun _ => "vcl content")).2.1 ("sid1") 6 ("main.vcl") ("k")
     (by decide),
   (vcl_upload_two_requests httpPutFails (fun _ => "vcl content")).2.2 ("shop") ("main.vcl")
     (some 6) ("k") { id := "sid1", name := "shop", version := 5 } rfl rfl (by decide)⟩

/-- C7: with a certificate path supplied the backend payload sets port 443,
hostname verification (ssl_check_cert), the CA certificate embedded from the
file contents (ssl_ca_cert) and the TLS-use flag (use_ssl); without one, none
of the TLS keys occur in the payload; and create_backend sends exactly this
payload as the body of its backend POST. -/
theorem backend_tls_payload (http : Http) (fs : String → String) :
    (∀ b c cd,
      ((backend_settings b (some c) cd fs).lookup ("port") = some (JVal.num 443)) ∧
      ((backend_settings b (some c) cd fs).lookup ("ssl_check_cert") = some (JVal.bool true)) ∧
      ((backend_settings b (some c) cd fs).lookup ("ssl_ca_cert") = some (JVal.str (fs c))) ∧
      ((backend_settings b (some c) cd fs).lookup ("use_ssl") = some (JVal.bool true)) ∧
      ((backend_settings b (some c) cd fs).lookup ("ssl_cert_hostname") = some (jOfOpt cd))) ∧
    (∀ b cd k, k ∈ [("port"), ("ssl_cert_hostname"), ("ssl_check_cert"),
        ("ssl_ca_cert"), ("use_ssl")] →
      (backend_settings b none cd fs).lookup k = none) ∧
    (∀ name b cert cd v key s, v ≠ 0 → (get_service http name key).1 = Except.ok s →
      (create_backend http fs name b cert cd (some v) key).2 =
        [serviceListReq key, backendAddReq s.id v (backend_settings b cert cd fs) key]) := by
  refine ⟨?_, ?_, ?_⟩
  · intro b c cd
    exact ⟨rfl, rfl, rfl, rfl, rfl⟩
  · intro b cd k hk
    fin_cases hk <;> rfl
  · intro name b cert cd v key s hv hs
    have hvt : pyVerTruthy (some v) = true := by
      simp [pyVerTruthy, hv]
    unfold create_backend
    rw [get_service_pair http name key s hs]
    simp only []
    rw [if_pos hvt]
    simp only []
    split <;> rfl

/-- C7 witness: the TLS payload fields at a concrete certificate, the absent
TLS key on a plain backend, and the concrete POST body sent by
create_backend. -/
theorem backend_tls_payload_witness :
    (((backend_settings ("origin") (some ("cert.pem")) (some ("www")) (fun _ => "CERT")).lookup
        ("port") = some (JVal.num 443)) ∧
      ((backend_settings ("origin") (some ("cert.pem")) (some ("www")) (fun _ => "CERT")).lookup
        ("ssl_check_cert") = some (JVal.bool true)) ∧
      ((backend_settings ("origin") (some ("cert.pem")) (some ("www")) (fun _ => "CERT")).lookup
        ("ssl_ca_cert") = some (JVal.str ((fun (_ : String) => "CERT") ("cert.pem")))) ∧
      ((backend_settings ("origin") (some ("cert.pem")) (some ("www")) (fun _ => "CERT")).lookup
        ("use_ssl") = some (JVal.bool true)) ∧
      ((backend_settings ("origin") (some ("cert.pem")) (some ("www")) (fun _ => "CERT")).lookup
        ("ssl_cert_hostname") = some (jOfOpt (some ("www"))))) ∧
    ((backend_settings ("origin") none (some ("www")) (fun _ => "CERT")).lookup
      ("use_ssl") = none) ∧
    ((create_backend httpShop (fun _ => "CERT") ("shop") ("origin") (some ("cert.pem"))
        (some ("www")) (some 6) ("k")).2 =
      [serviceListReq ("k"), backendAddReq ("sid1") 6
        (backend_settings ("origin") (some ("cert.pem")) (some ("www")) (fun _ => "CERT")) ("k")]) :=
  ⟨(backend_tls_payload httpShop (fun _ => "CERT")).1 ("origin") ("cert.pem") (some ("www")),
   (backend_tls_payload httpShop (fun _ => "CERT")).2.1 ("origin") (some ("www")) ("use_ssl")
     (by decide),
   (backend_tls_payload httpShop (fun _ => "CERT")).2.2 ("shop") ("origin") (some ("cert.pem"))
     (some ("www")) 6 ("k") { id := "sid1", name := "shop", version := 5 } (by decide) rfl⟩

/-- C5 counterexample: the domain DELETE returns status 500, yet
delete_domain returns None normally: no provider-error condition is raised
and the response body is discarded, contradicting the claim for the
domain-delete mutator. -/
theorem delete_domain_ignores_failure :
    (httpDeleteFails (domainDeleteReq ("sid1") 5 ("www.example.com") ("k"))).status_code = 500 ∧
    delete_domain httpDeleteFails ("envkey") ("shop") ("www.example.com") ("k") =
      (Except.ok (), [serviceListReq ("envkey"), serviceListReq ("envkey"),
        domainDeleteReq ("sid1") 5 ("www.example.com") ("k")]) :=
  ⟨rfl, rfl⟩

/-- C5 amended: the mutators that check their response — VCL upload (in its
create step and through the returned set-main response), VCL delete, domain
add and backend create — raise FastlyException carrying the raw response body
on a non-success status and return the raw response on success; but
delete_domain issues its DELETE without examining the status and returns None
either way, and create_token never raises on a non-success status: it prints
a message and returns the raw response, returning the parsed access token
only on a 200. -/
theorem mutator_error_contract (http : Http) (fs : String → String) :
    (∀ sid ver vcl key, (http (vclCreateReq sid ver (fs vcl) key)).status_code ≠ 200 →
      (upload_vcl_by_id http fs sid ver vcl key).1 = Except.error (Exc.fastly
        ("Error from Fastly API: " ++ (http (vclCreateReq sid ver (fs vcl) key)).text))) ∧
    (∀ name vcl sv key s, (get_service http name key).1 = Except.ok s →
      (http (vclCreateReq s.id (versionOrDefault sv s.version) (fs vcl) key)).status_code = 200 →
      (http (vclMainReq s.id (versionOrDefault sv s.version) key)).status_code = 200 →
      (upload_vcl http fs name vcl sv key).1 =
        Except.ok (http (vclMainReq s.id (versionOrDefault sv s.version) key))) ∧
    (∀ name vn sv key s, (get_service http name key).1 = Except.ok s →
      (http (vclDeleteReq s.id (versionOrDefault sv s.version) vn key)).status_code ≠ 200 →
      (delete_vcl http name vn sv key).1 = Except.error (Exc.fastly
        ("Error from Fastly API: " ++
          (http (vclDeleteReq s.id (versionOrDefault sv s.version) vn key)).text))) ∧
    (∀ name vn sv key s, (get_service http name key).1 = Except.ok s →
      (http (vclDeleteReq s.id (versionOrDefault sv s.version) vn key)).status_code = 200 →
      (delete_vcl http name vn sv key).1 =
        Except.ok (http (vclDeleteReq s.id (versionOrDefault sv s.version) vn key))) ∧
    (∀ env name dom v key s, v ≠ 0 → (get_service http name key).1 = Except.ok s →
      (http (domainAddReq s.id v dom key)).status_code ≠ 200 →
      (add_domain http env name dom (some v) key).1 = Except.error (Exc.fastly
        ("Error from Fastly API: " ++ (http (domainAddReq s.id v dom key)).text))) ∧
    (∀ env name dom v key s, v ≠ 0 → (get_service http name key).1 = Except.ok s →
      (http (domainAddReq s.id v dom key)).status_code = 200 →
      (add_domain http env name dom (some v) key).1 =
        Except.ok (http (domainAddReq s.id v dom key))) ∧
    (∀ name b cert cd v key s, v ≠ 0 → (get_service http name key).1 = Except.ok s →
      (http (backendAddReq s.id v (backend_settings b cert cd fs) key)).status_code ≠ 200 →
      (create_backend http fs name b cert cd (some v) key).1 = Except.error (Exc.fastly
        ("Error from Fastly API: " ++
          (http (backendAddReq s.id v (backend_settings b cert cd fs) key)).text))) ∧
    (∀ name b cert cd v key s, v ≠ 0 → (get_service http name key).1 = Except.ok s →
      (http (backendAddReq s.id v (backend_settings b cert cd fs) key)).status_code = 200 →
      (create_backend http fs name b cert cd (some v) key).1 =
        Except.ok (http (backendAddReq s.id v (backend_settings b cert cd fs) key))) ∧
    (∀ env name dom key s, (get_service http name env).1 = Except.ok s →
      delete_domain http env name dom key =
        (Except.ok (), [serviceListReq env, serviceListReq env,
          domainDeleteReq s.id s.version dom key])) ∧
    (∀ env gp name u p s, (get_service http name env).1 = Except.ok s →
      (http (tokenCreateReq s.id (splitUser u)
        (if p.isEmpty then gp else p) env)).status_code ≠ 200 →
      (create_token http env gp name u p).1 = Except.ok (TokenResult.failed
        (http (tokenCreateReq s.id (splitUser u) (if p.isEmpty then gp else p) env)))) ∧
    (∀ env gp name u p s, (get_service http name env).1 = Except.ok s →
      (http (tokenCreateReq s.id (splitUser u)
        (if p.isEmpty then gp else p) env)).status_code = 200 →
      (create_token http env gp name u p).1 = Except.ok (TokenResult.token
        (http (tokenCreateReq s.id (splitUser u)
          (if p.isEmpty then gp else p) env)).jsonAccessToken)) := by
  refine ⟨?_, ?_, ?_, ?_, ?_, ?_, ?_, ?_, ?_, ?_, ?_⟩
  · intro sid ver vcl key h
    rw [upload_vcl_by_id_fail http fs sid ver vcl key h]
  · intro name vcl sv key s hs ha hb
    unfold upload_vcl
    rw [get_service_pair http name key s hs]
    simp only []
    rw [upload_vcl_by_id_ok http fs s.id (versionOrDefault sv s.version) vcl key ha]
    simp only []
    rw [if_neg (not_ne_iff.mpr hb)]
  · intro name vn sv key s hs h
    unfold delete_vcl
    rw [get_service_pair http name key s hs]
    simp only []
    rw [if_pos h]
  · intro name vn sv key s hs h
    unfold delete_vcl
    rw [get_service_pair http name key s hs]
    simp only []
    rw [if_neg (not_ne_iff.mpr h)]
  · intro env name dom v key s hv hs h
    have hvt : pyVerTruthy (some v) = true := by simp [pyVerTruthy, hv]
    unfold add_domain
    rw [get_service_pair http name key s hs]
    simp only []
    rw [if_pos hvt]
    simp only [Option.getD_some]
    rw [if_pos h]
  · intro env name dom v key s hv hs h
    have hvt : pyVerTruthy (some v) = true := by simp [pyVerTruthy, hv]
    unfold add_domain
    rw [get_service_pair http name key s hs]
    simp only []
    rw [if_pos hvt]
    simp only [Option.getD_some]
    rw [if_neg (not_ne_iff.mpr h)]
  · intro name b cert cd v key s hv hs h
    have hvt : pyVerTruthy (some v) = true := by simp [pyVerTruthy, hv]
    unfold create_backend
    rw [get_service_pair http name key s hs]
    simp only []
    rw [if_pos hvt]
    simp only [Option.getD_some]
    rw [if_pos h]
  · intro name b cert cd v key s hv hs h
    have hvt : pyVerTruthy (some v) = true := by simp [pyVerTruthy, hv]
    unfold create_backend
    rw [get_service_pair http name key s hs]
    simp only []
    rw [if_pos hvt]
    simp only [Option.getD_some]
    rw [if_neg (not_ne_iff.mpr h)]
  · intro env name dom key s hs
    unfold delete_domain
    rw [get_service_pair http name env s hs]
    rfl
  · intro env gp name u p s hs h
    unfold create_token
    rw [get_service_pair http name env s hs]
    simp only []
    rw [if_neg (by simp [h])]
  · intro env gp name u p s hs h
    unfold create_token
    rw [get_service_pair http name env s hs]
    simp only []
    rw [if_pos (by simp [h])]

/-- C5 amended witness: each contract case instantiated at a concrete input
against the shop providers. -/
theorem mutator_error_contract_witness :
    ((upload_vcl_by_id httpPostFails (fun _ => "V") ("sid1") 6 ("m.vcl") ("k")).1 =
      Except.error (Exc.fastly ("Error from Fastly API: " ++
        (httpPostFails (vclCreateReq ("sid1") 6 ("V") ("k"))).text))) ∧
    ((upload_vcl httpShop (fun _ => "V") ("shop") ("m.vcl") (some 6) ("k")).1 =
      Except.ok (httpShop (vclMainReq ("sid1") 6 ("k")))) ∧
    ((delete_vcl httpDeleteFails ("shop") ("main") (some 6) ("k")).1 =
      Except.error (Exc.fastly ("Error from Fastly API: " ++
        (httpDeleteFails (vclDeleteReq ("sid1") 6 ("main") ("k"))).text))) ∧
    ((delete_vcl httpShop ("shop") ("main") (some 6) ("k")).1 =
      Except.ok (httpShop (vclDeleteReq ("sid1") 6 ("main") ("k")))) ∧
    ((add_domain httpPostFails ("env") ("shop") ("www") (some 6) ("k")).1 =
      Except.error (Exc.fastly ("Error from Fastly API: " ++
        (httpPostFails (domainAddReq ("sid1") 6 ("www") ("k"))).text))) ∧
    ((add_domain httpShop ("env") ("shop") ("www") (some 6) ("k")).1 =
      Except.ok (httpShop (domainAddReq ("sid1") 6 ("www") ("k")))) ∧
    ((create_backend httpPostFails (fun _ => "C") ("shop") ("origin") none none
        (some 6) ("k")).1 =
      Except.error (Exc.fastly ("Error from Fastly API: " ++
        (httpPostFails (backendAddReq ("sid1") 6
          (backend_settings ("origin") none none (fun _ => "C")) ("k"))).text))) ∧
    ((create_backend httpShop (fun _ => "C") ("shop") ("origin") none none
        (some 6) ("k")).1 =
      Except.ok (httpShop (backendAddReq ("sid1") 6
        (backend_settings ("origin") none none (fun _ => "C")) ("k")))) ∧
    (delete_domain httpShop ("env") ("shop") ("www") ("k") =
      (Except.ok (), [serviceListReq ("env"), serviceListReq ("env"),
        domainDeleteReq ("sid1") 5 ("www") ("k")])) ∧
    ((create_token httpPostFails ("env") ("gp") ("shop") ("user") ("pw")).1 =
      Except.ok (TokenResult.failed (httpPostFails
        (tokenCreateReq ("sid1") (splitUser ("user"))
          (if ("pw" : String).isEmpty then ("gp") else ("pw")) ("env"))))) ∧
    ((create_token httpShop ("env") ("gp") ("shop") ("user") ("pw")).1 =
      Except.ok (TokenResult.token (httpShop
        (tokenCreateReq ("sid1") (splitUser ("user"))
          (if ("pw" : String).isEmpty then ("gp") else ("pw")) ("env"))).jsonAccessToken)) :=
  ⟨(mutator_error_contract httpPostFails (fun _ => "V")).1 ("sid1") 6 ("m.vcl") ("k")
     (by decide),
   (mutator_error_contract httpShop (fun _ => "V")).2.1 ("shop") ("m.vcl") (some 6) ("k")
     { id := "sid1", name := "shop", version := 5 } rfl rfl rfl,
   (mutator_error_contract httpDeleteFails (fun _ => "V")).2.2.1 ("shop") ("main") (some 6)
     ("k") { id := "sid1", name := "shop", version := 5 } rfl (by decide),
   (mutator_error_contract httpShop (fun _ => "V")).2.2.2.1 ("shop") ("main") (some 6)
     ("k") { id := "sid1", name := "shop", version := 5 } rfl rfl,
   (mutator_error_contract httpPostFails (fun _ => "V")).2.2.2.2.1 ("env") ("shop") ("www")
     6 ("k") { id := "sid1", name := "shop", version := 5 } (by decide) rfl (by decide),
   (mutator_error_contract httpShop (fun _ => "V")).2.2.2.2.2.1 ("env") ("shop") ("www")
     6 ("k") { id := "sid1", name := "shop", version := 5 } (by decide) rfl rfl,
   (mutator_error_contract httpPostFails (fun _ => "C")).2.2.2.2.2.2.1 ("shop") ("origin")
     none none 6 ("k") { id := "sid1", name := "shop", version := 5 }
     (by decide) rfl (by decide),
   (mutator_error_contract httpShop (fun _ => "C")).2.2.2.2.2.2.2.1 ("shop") ("origin")
     none none 6 ("k") { id := "sid1", name := "shop", version := 5 } (by decide) rfl rfl,
   (mutator_error_contract httpShop (fun _ => "C")).2.2.2.2.2.2.2.2.1 ("env") ("shop")
     ("www") ("k") { id := "sid1", name := "shop", version := 5 } rfl,
   (mutator_error_contract httpPostFails (fun _ => "C")).2.2.2.2.2.2.2.2.2.1 ("env") ("gp")
     ("shop") ("user") ("pw") { id := "sid1", name := "shop", version := 5 } rfl (by decide),
   (mutator_error_contract httpShop (fun _ => "C")).2.2.2.2.2.2.2.2.2.2 ("env") ("gp")
     ("shop") ("user") ("pw") { id := "sid1", name := "shop", version := 5 } rfl rfl⟩

end Fastly
